import Mathlib

/-!
Shallow embedding of the greeting core of the repository
(`src/project_name`): the `Greeting` entity, the in-memory repository and
the `GreetingService`, together with proofs of the behavioural claims.

Conventions of the embedding:
* Python `datetime` values are modelled by `DateTime`, a record of the six
  fields the program reads (`strftime("%Y-%m-%d %H:%M:%S")`); Python
  compares `datetime` values field-lexicographically, which `DateTime.leb`
  mirrors.
* The Python `dict[str, list[Greeting]]` is modelled as a total function
  `String → List Greeting` whose default value is `[]`; this coincides with
  the program's use of the dict (`d.get(r, [])` reads, and `save` creates
  the missing key before appending).
* `datetime.now()` is an ambient-clock read; it is passed in explicitly as
  a `now : DateTime` argument.
* The repository methods are `async def`s; `GreetingService` invokes them
  without `await` from synchronous code.  Calling an `async def` in Python
  builds a coroutine object without running the body, so in the embedding
  `create_greeting` leaves the repository unchanged (its `save` coroutine
  is discarded) and `get_latest_greetings` fails with a `TypeError` (the
  list comprehension iterates the coroutine object).  The repository
  methods themselves are embedded with their documented (awaited)
  semantics, which is how the repository class behaves on its own.
-/

namespace ProjectName

/-- One lexicographic step on a `Nat` component: if the components are
equal, defer to the comparison `k` of the remaining components, otherwise
compare the components themselves.  This is how Python compares tuples,
and `datetime` values compare like tuples of their fields. -/
def natLex (x y : Nat) (k : Bool) : Bool :=
  if x = y then k else decide (x < y)

/-- The fields of a Python `datetime` that the program reads: the six
components printed by `strftime("%Y-%m-%d %H:%M:%S")`. -/
structure DateTime where
  year : Nat
  month : Nat
  day : Nat
  hour : Nat
  minute : Nat
  second : Nat
  deriving DecidableEq, Repr

/-- Python `datetime` comparison `a <= b`: lexicographic on the fields. -/
def DateTime.leb (a b : DateTime) : Bool :=
  natLex a.year b.year <|
    natLex a.month b.month <|
      natLex a.day b.day <|
        natLex a.hour b.hour <|
          natLex a.minute b.minute <| decide (a.second ≤ b.second)

/-- Zero-pad a number to two digits, as `strftime` does for `%m`, `%d`,
`%H`, `%M` and `%S`. -/
def pad2 (n : Nat) : String :=
  if n < 10 then "0" ++ toString n else toString n

/-- Zero-pad a number to four digits, as `strftime` does for `%Y`. -/
def pad4 (n : Nat) : String :=
  if n < 10 then "000" ++ toString n
  else if n < 100 then "00" ++ toString n
  else if n < 1000 then "0" ++ toString n
  else toString n

/-- Embedding of `timestamp.strftime("%Y-%m-%d %H:%M:%S")`. -/
def DateTime.strftimeYmdHMS (t : DateTime) : String :=
  pad4 t.year ++ "-" ++ pad2 t.month ++ "-" ++ pad2 t.day ++ " " ++
    pad2 t.hour ++ ":" ++ pad2 t.minute ++ ":" ++ pad2 t.second

/-- Embedding of Python `str.strip()` with no argument: drop leading and
trailing whitespace characters (the program only ever strips ASCII
whitespace in practice). -/
def pyStrip (s : String) : String :=
  ⟨((s.data.dropWhile Char.isWhitespace).reverse.dropWhile Char.isWhitespace).reverse⟩

/-- The domain entity of `domain/greeting/entities.py`: a record of
`message`, `recipient` and `timestamp`. -/
structure Greeting where
  message : String
  recipient : String
  timestamp : DateTime
  deriving DecidableEq, Repr

/-- Embedding of `Greeting.__init__`: fields are stored verbatim and
`self.timestamp = timestamp or datetime.now()` picks the supplied
timestamp when present (a `datetime` is never falsy) and the current
wall-clock time `now` otherwise. -/
def Greeting.construct (message recipient : String) (timestamp : Option DateTime)
    (now : DateTime) : Greeting :=
  { message := message, recipient := recipient, timestamp := timestamp.getD now }

/-- Embedding of `Greeting.format_greeting`, the f-string
`f"{self.message}, {self.recipient}!"`. -/
def Greeting.format_greeting (g : Greeting) : String :=
  g.message ++ ", " ++ g.recipient ++ "!"

/-- Embedding of `Greeting.format_with_timestamp`: the formatted time is
appended to `format_greeting` via
`f"{self.format_greeting()} The time is {formatted_time}."`. -/
def Greeting.format_with_timestamp (g : Greeting) : String :=
  g.format_greeting ++ " The time is " ++ g.timestamp.strftimeYmdHMS ++ "."

/-- The service-level failure taxonomy of
`domain/greeting/exceptions.py`; each carries its message string. -/
inductive GreetingError where
  | invalidRecipient (msg : String)
  | emptyMessage (msg : String)
  deriving DecidableEq, Repr

/-- The state of `InMemoryGreetingRepository`: the per-recipient buckets
`self.greetings` (a dict, modelled as a total function defaulting to `[]`)
and the global insertion-ordered list `self.all_greetings`. -/
structure InMemoryGreetingRepository where
  greetings : String → List Greeting
  all_greetings : List Greeting

/-- The state produced by `InMemoryGreetingRepository.__init__`: empty
storage. -/
def InMemoryGreetingRepository.init : InMemoryGreetingRepository :=
  { greetings := fun _ => [], all_greetings := [] }

/-- Embedding of the (awaited) body of `save`: create the recipient's
bucket if missing, append the greeting to it, and append the greeting to
`all_greetings`. -/
def InMemoryGreetingRepository.save (repo : InMemoryGreetingRepository)
    (g : Greeting) : InMemoryGreetingRepository :=
  { greetings := fun r =>
      if r = g.recipient then repo.greetings r ++ [g] else repo.greetings r,
    all_greetings := repo.all_greetings ++ [g] }

/-- Embedding of the (awaited) body of `find_by_recipient`:
`self.greetings.get(recipient, [])`. -/
def InMemoryGreetingRepository.find_by_recipient
    (repo : InMemoryGreetingRepository) (recipient : String) : List Greeting :=
  repo.greetings recipient

/-- The comparison under `sorted(self.all_greetings, key=lambda g:
g.timestamp, reverse=True)`: `a` may precede `b` when `b`'s timestamp is
at most `a`'s.  Python's `sorted` is stable, also with `reverse=True`, so
a stable merge sort under this relation is the exact embedding. -/
def byTimestampDesc (a b : Greeting) : Bool :=
  DateTime.leb b.timestamp a.timestamp

/-- Embedding of the (awaited) body of `get_latest` (Python default
`limit = 5`): stable-sort all greetings by timestamp descending and take
the first `limit`. -/
def InMemoryGreetingRepository.get_latest (repo : InMemoryGreetingRepository)
    (limit : Nat) : List Greeting :=
  (repo.all_greetings.mergeSort byTimestampDesc).take limit

/-- Run a sequence of (awaited) `save` calls in order. -/
def InMemoryGreetingRepository.saveAll (repo : InMemoryGreetingRepository)
    (gs : List Greeting) : InMemoryGreetingRepository :=
  gs.foldl InMemoryGreetingRepository.save repo

/-- The input DTO of `use_cases/greeting/dtos.py` as the service receives
it: three plain fields (Python defaults: `message = "Hello"`,
`include_timestamp = False`). -/
structure GreetingRequest where
  recipient : String
  message : String
  include_timestamp : Bool
  deriving DecidableEq, Repr

/-- Embedding of pydantic validation of `GreetingRequest`: the `Field`
constraints (`recipient`: `min_length=1, max_length=100`; `message`:
`min_length=1`) followed by the `recipient_must_not_be_empty` validator,
which rejects a recipient that is empty after stripping.  A failure is a
`ValueError`-style validation error carrying its message; it is not a
`GreetingError`. -/
def GreetingRequest.validate (recipient message : String)
    (include_timestamp : Bool) : Except String GreetingRequest :=
  if recipient.length < 1 then .error "String should have at least 1 character"
  else if 100 < recipient.length then .error "String should have at most 100 characters"
  else if pyStrip recipient = "" then .error "Recipient cannot be empty"
  else if message.length < 1 then .error "String should have at least 1 character"
  else .ok { recipient := recipient, message := message,
             include_timestamp := include_timestamp }

/-- The output DTO `GreetingResponse`: rendered greeting, recipient and an
optional timestamp. -/
structure GreetingResponse where
  greeting : String
  recipient : String
  timestamp : Option DateTime
  deriving DecidableEq, Repr

/-- Embedding of `GreetingService.create_greeting`.  Validation tests the
raw strings for zero length (Python string falsiness; no stripping
happens here).  The statement `self.greeting_repository.save(greeting)`
invokes an `async def` from synchronous code without `await`: the
coroutine object is discarded without running, so the repository state in
the result is the input state unchanged.  The response is rendered from
the locally constructed entity. -/
def GreetingService.create_greeting (repo : InMemoryGreetingRepository)
    (request : GreetingRequest) (now : DateTime) :
    Except GreetingError (GreetingResponse × InMemoryGreetingRepository) :=
  if request.recipient = "" then .error (.invalidRecipient "Recipient is required")
  else if request.message = "" then .error (.emptyMessage "Message cannot be empty")
  else
    let greeting := Greeting.construct request.message request.recipient none now
    let formatted_message :=
      if request.include_timestamp then greeting.format_with_timestamp
      else greeting.format_greeting
    .ok ({ greeting := formatted_message,
           recipient := greeting.recipient,
           timestamp := if request.include_timestamp then some greeting.timestamp else none },
         repo)

/-- Runtime failures that are not part of the `GreetingError` taxonomy. -/
inductive PyError where
  | typeError (msg : String)
  deriving DecidableEq, Repr

/-- Embedding of `GreetingService.get_latest_greetings` (Python default
`limit = 5`).  The binding `greetings = self.greeting_repository.get_latest(limit)`
invokes an `async def` without `await`, so `greetings` is a coroutine
object, not a list; the list comprehension `[... for g in greetings]`
then raises `TypeError` before producing any element, whatever the
repository state and limit are. -/
def GreetingService.get_latest_greetings (repo : InMemoryGreetingRepository)
    (limit : Nat) : Except PyError (List GreetingResponse) :=
  .error (.typeError "coroutine object is not iterable")

/-- The repository's operations, for stating frame properties over
arbitrary interleavings of calls. -/
inductive StoreOp where
  | save (g : Greeting)
  | findByRecipient (recipient : String)
  | getLatest (limit : Nat)

/-- The repository state after one method body runs (awaited): `save`
appends; `find_by_recipient` evaluates `self.greetings.get(recipient, [])`,
which reads without inserting a key; `get_latest` evaluates `sorted(...)`,
which builds a fresh list.  Neither query assigns to an attribute of
`self`, so neither changes the state. -/
def StoreOp.run (op : StoreOp) (repo : InMemoryGreetingRepository) :
    InMemoryGreetingRepository :=
  match op with
  | .save g => repo.save g
  | .findByRecipient _ => repo
  | .getLatest _ => repo

/-- Run a sequence of repository operations in order. -/
def runOps (ops : List StoreOp) (repo : InMemoryGreetingRepository) :
    InMemoryGreetingRepository :=
  ops.foldl (fun s op => op.run s) repo

/-- The greetings passed to `save` within a sequence of operations, in
order. -/
def savesOf (ops : List StoreOp) : List Greeting :=
  ops.filterMap fun op =>
    match op with
    | .save g => some g
    | .findByRecipient _ => none
    | .getLatest _ => none

/-- A fixed clock value for concrete instances. -/
def now0 : DateTime := ⟨2025, 5, 16, 12, 0, 0⟩

/-- The entity built by a successful `create_greeting` for recipient
"Alice" with the default message, at clock `now0`. -/
def gAlice : Greeting := Greeting.construct "Hello" "Alice" none now0

/-- A second concrete greeting, one hour later. -/
def gBob : Greeting := Greeting.construct "Hello" "Bob" none ⟨2025, 5, 16, 13, 0, 0⟩

/-- A concrete repository state holding `gAlice` then `gBob`, built by
awaited saves. -/
def demoRepo : InMemoryGreetingRepository :=
  InMemoryGreetingRepository.init.saveAll [gAlice, gBob]

/-! ### Helper lemmas about the lexicographic timestamp order -/

/-- One lexicographic step preserves transitivity of the tail comparison. -/
theorem natLex_trans {x y z : Nat} {k1 k2 k3 : Bool}
    (hk : k1 = true → k2 = true → k3 = true) :
    natLex x y k1 = true → natLex y z k2 = true → natLex x z k3 = true := by
  unfold natLex
  split_ifs <;> simp_all <;> omega

/-- One lexicographic step preserves totality of the tail comparison. -/
theorem natLex_total {x y : Nat} {k k' : Bool} (h : k = true ∨ k' = true) :
    natLex x y k = true ∨ natLex y x k' = true := by
  unfold natLex
  split_ifs <;> simp_all

/-- Timestamps compare transitively. -/
theorem DateTime.leb_trans {a b c : DateTime}
    (h1 : DateTime.leb a b = true) (h2 : DateTime.leb b c = true) :
    DateTime.leb a c = true := by
  unfold DateTime.leb at h1 h2 ⊢
  exact natLex_trans
    (natLex_trans
      (natLex_trans
        (natLex_trans
          (natLex_trans (fun u v => by
            simp only [decide_eq_true_eq] at u v ⊢; omega)))))
    h1 h2

/-- Any two timestamps are comparable. -/
theorem DateTime.leb_total (a b : DateTime) :
    DateTime.leb a b = true ∨ DateTime.leb b a = true := by
  unfold DateTime.leb
  exact natLex_total (natLex_total (natLex_total (natLex_total (natLex_total (by
    simp only [decide_eq_true_eq]; omega)))))

/-- The timestamp comparison is reflexive. -/
theorem DateTime.leb_refl (a : DateTime) : DateTime.leb a a = true := by
  unfold DateTime.leb natLex
  simp

/-- The descending comparison used by `get_latest` is transitive. -/
theorem byTimestampDesc_trans (a b c : Greeting)
    (h1 : byTimestampDesc a b = true) (h2 : byTimestampDesc b c = true) :
    byTimestampDesc a c = true :=
  DateTime.leb_trans h2 h1

/-- The descending comparison used by `get_latest` is total. -/
theorem byTimestampDesc_total (a b : Greeting) :
    (byTimestampDesc a b || byTimestampDesc b a) = true := by
  rcases DateTime.leb_total b.timestamp a.timestamp with h | h <;>
    simp [byTimestampDesc, h]

/-- Stripping the empty string yields the empty string. -/
theorem pyStrip_empty : pyStrip "" = "" := rfl

/-! ### Helper lemmas about the repository state -/

/-- Running a sequence of saves appends the saved greetings, in order, to
`all_greetings`. -/
theorem saveAll_all_greetings (repo : InMemoryGreetingRepository)
    (gs : List Greeting) :
    (repo.saveAll gs).all_greetings = repo.all_greetings ++ gs := by
  induction gs generalizing repo with
  | nil => simp [InMemoryGreetingRepository.saveAll]
  | cons g gs ih =>
    simp [InMemoryGreetingRepository.saveAll, List.foldl_cons] at ih ⊢
    rw [ih]
    simp [InMemoryGreetingRepository.save]

/-- Running a sequence of saves appends, to each recipient's bucket and in
order, exactly the saved greetings addressed to that recipient. -/
theorem saveAll_bucket (repo : InMemoryGreetingRepository)
    (gs : List Greeting) (r : String) :
    (repo.saveAll gs).greetings r
      = repo.greetings r ++ gs.filter (fun x => decide (x.recipient = r)) := by
  induction gs generalizing repo with
  | nil => simp [InMemoryGreetingRepository.saveAll]
  | cons g gs ih =>
    simp only [InMemoryGreetingRepository.saveAll, List.foldl_cons] at ih ⊢
    rw [ih]
    by_cases h : g.recipient = r
    · simp [InMemoryGreetingRepository.save, h, List.filter_cons]
    · have h' : ¬(r = g.recipient) := fun hr => h hr.symm
      simp [InMemoryGreetingRepository.save, h, h', List.filter_cons]

/-- A stable sort does not reorder the elements selected by a predicate
whose selected elements are pairwise tied under the comparison. -/
theorem mergeSort_filter_fixed {α : Type} (le : α → α → Bool)
    (trans : ∀ a b c : α, le a b → le b c → le a c)
    (total : ∀ a b : α, le a b || le b a)
    (l : List α) (p : α → Bool)
    (hp : ∀ a b : α, p a = true → p b = true → le a b = true) :
    (l.mergeSort le).filter p = l.filter p := by
  have hpw : (l.filter p).Pairwise (fun a b => le a b = true) :=
    List.pairwise_of_forall_mem_list fun a ha b hb =>
      hp a b (List.of_mem_filter ha) (List.of_mem_filter hb)
  have h2 : List.Sublist (l.filter p) (l.mergeSort le) :=
    List.sublist_mergeSort trans total hpw (List.filter_sublist l)
  have h3 : List.Sublist (l.filter p) ((l.mergeSort le).filter p) := by
    have := h2.filter p
    rwa [List.filter_filter, (by
      funext a; cases p a <;> rfl : (fun a => p a && p a) = p)] at this
  have h4 : ((l.mergeSort le).filter p).length = (l.filter p).length :=
    ((List.mergeSort_perm l le).filter p).length_eq
  exact (h3.eq_of_length h4.symm).symm

/-- Filtering a prefix produces a prefix of the filtered list. -/
theorem filter_take_isPrefix {α : Type} (l : List α) (p : α → Bool) (n : Nat) :
    (l.take n).filter p <+: l.filter p :=
  ⟨(l.drop n).filter p, by rw [← List.filter_append, List.take_append_drop]⟩

/-! ### Claim theorems -/

/-- C6: `format_greeting` returns exactly `"{message}, {recipient}!"` and
`format_with_timestamp` returns that same text followed by
`" The time is {timestamp as YYYY-MM-DD HH:MM:SS}."`; both read only the
entity's fields, so repeated calls on one entity yield identical text. -/
theorem C6_format_functions (g : Greeting) :
    g.format_greeting = g.message ++ ", " ++ g.recipient ++ "!"
    ∧ g.format_with_timestamp
        = g.format_greeting ++ " The time is "
            ++ (pad4 g.timestamp.year ++ "-" ++ pad2 g.timestamp.month ++ "-"
                ++ pad2 g.timestamp.day ++ " " ++ pad2 g.timestamp.hour ++ ":"
                ++ pad2 g.timestamp.minute ++ ":" ++ pad2 g.timestamp.second) ++ "."
    ∧ ∀ g' : Greeting, g' = g →
        g'.format_greeting = g.format_greeting
        ∧ g'.format_with_timestamp = g.format_with_timestamp := by
  refine ⟨rfl, rfl, ?_⟩
  rintro g' rfl
  exact ⟨rfl, rfl⟩

/-- Witness for C6 at a concrete greeting. -/
theorem C6_format_functions_witness :
    (Greeting.mk "Hello" "World" ⟨2025, 5, 16, 12, 0, 0⟩).format_greeting
        = "Hello, World!"
    ∧ (Greeting.mk "Hello" "World" ⟨2025, 5, 16, 12, 0, 0⟩).format_with_timestamp
        = "Hello, World! The time is 2025-05-16 12:00:00." := by
  have h := C6_format_functions (Greeting.mk "Hello" "World" ⟨2025, 5, 16, 12, 0, 0⟩)
  refine ⟨?_, ?_⟩
  · rw [h.1]; rfl
  · rw [h.2.1, h.1]; rfl

/-- C7: `Greeting.__init__` stores message and recipient verbatim with no
validation (construction is total, even for empty strings); a supplied
timestamp is stored as given, and an omitted timestamp is replaced by the
current wall-clock time. -/
theorem C7_construct_verbatim (m r : String) (ts : Option DateTime)
    (t now : DateTime) :
    (Greeting.construct m r ts now).message = m
    ∧ (Greeting.construct m r ts now).recipient = r
    ∧ (Greeting.construct m r (some t) now).timestamp = t
    ∧ (Greeting.construct m r none now).timestamp = now :=
  ⟨rfl, rfl, rfl, rfl⟩

/-- C1: refuted by the code as it runs.  A successful `create_greeting`
leaves the repository exactly as it was (the `async` `save` is invoked
without `await`, so its coroutine is discarded unexecuted), and the
created greeting is not retrievable afterwards: `find_by_recipient` on the
returned state is still empty.  The repository itself does satisfy the
round-trip — an awaited `save` makes the greeting retrievable — so the
failure is the service's missing `await`. -/
theorem C1_save_never_awaited :
    GreetingService.create_greeting InMemoryGreetingRepository.init
        { recipient := "Alice", message := "Hello", include_timestamp := false } now0
      = .ok ({ greeting := "Hello, Alice!", recipient := "Alice", timestamp := none },
             InMemoryGreetingRepository.init)
    ∧ InMemoryGreetingRepository.init.find_by_recipient "Alice" = []
    ∧ (InMemoryGreetingRepository.init.save gAlice).find_by_recipient "Alice" = [gAlice] := by
  refine ⟨rfl, rfl, ?_⟩
  simp [InMemoryGreetingRepository.save, InMemoryGreetingRepository.find_by_recipient,
    InMemoryGreetingRepository.init, gAlice, Greeting.construct]

/-- C9: refuted by the code as it runs.  Even on a repository that holds
greetings (here `gAlice` and `gBob`, stored by awaited saves, which the
repository's own `get_latest` returns), the service's
`get_latest_greetings` fails with a `TypeError`: it binds the result of
the un-awaited `async` `get_latest` — a coroutine object — and the list
comprehension cannot iterate it. -/
theorem C9_get_latest_greetings_type_error :
    demoRepo.all_greetings = [gAlice, gBob]
    ∧ (demoRepo.get_latest 5).length = 2
    ∧ GreetingService.get_latest_greetings demoRepo 5
        = .error (.typeError "coroutine object is not iterable") := by
  refine ⟨rfl, ?_, rfl⟩
  rw [InMemoryGreetingRepository.get_latest, List.length_take, List.length_mergeSort]
  decide

/-- C2: counterexample.  With the whitespace-only recipient `" "` the
Service does not fail with `InvalidRecipientError` — `create_greeting`
succeeds, because `if not request.recipient` tests raw zero-length and
`" "` is truthy — while the DTO validator rejects that same recipient.
The two layers therefore do not agree that "empty" means zero-length
after trimming. -/
theorem C2_counterexample :
    GreetingService.create_greeting InMemoryGreetingRepository.init
        { recipient := " ", message := "Hello", include_timestamp := false } now0
      = .ok ({ greeting := "Hello,  !", recipient := " ", timestamp := none },
             InMemoryGreetingRepository.init)
    ∧ GreetingRequest.validate " " "Hello" false = .error "Recipient cannot be empty" :=
  ⟨rfl, rfl⟩

/-- C2 as amended: the Service raises `InvalidRecipientError` exactly for
zero-length recipients (no trimming) and `EmptyMessageError` for
zero-length messages, and otherwise succeeds — so whitespace-only
recipients pass Service validation; it is the request DTO, and only the
DTO, that rejects recipients that are empty after trimming (with a
ValueError-style validation error, not a `GreetingError`). -/
theorem C2_validation_layers (request : GreetingRequest)
    (repo : InMemoryGreetingRepository) (now : DateTime) :
    (request.recipient = "" →
      GreetingService.create_greeting repo request now
        = .error (.invalidRecipient "Recipient is required"))
    ∧ (request.recipient ≠ "" → request.message = "" →
      GreetingService.create_greeting repo request now
        = .error (.emptyMessage "Message cannot be empty"))
    ∧ (request.recipient ≠ "" → request.message ≠ "" →
      ∃ resp, GreetingService.create_greeting repo request now = .ok (resp, repo))
    ∧ (∀ r m : String, ∀ it : Bool, pyStrip r = "" →
        ∃ e, GreetingRequest.validate r m it = .error e) := by
  refine ⟨?_, ?_, ?_, ?_⟩
  · intro h
    simp [GreetingService.create_greeting, h]
  · intro h1 h2
    simp [GreetingService.create_greeting, h1, h2]
  · intro h1 h2
    simp only [GreetingService.create_greeting, if_neg h1, if_neg h2]
    exact ⟨_, rfl⟩
  · intro r m it h
    unfold GreetingRequest.validate
    split_ifs <;> exact ⟨_, rfl⟩

/-- Witness for C2 as amended, at concrete requests exercising each
hypothesis. -/
theorem C2_validation_layers_witness :
    (GreetingService.create_greeting InMemoryGreetingRepository.init
        { recipient := "", message := "Hello", include_timestamp := false } now0
      = .error (.invalidRecipient "Recipient is required"))
    ∧ (GreetingService.create_greeting InMemoryGreetingRepository.init
        { recipient := "Alice", message := "", include_timestamp := false } now0
      = .error (.emptyMessage "Message cannot be empty"))
    ∧ (∃ resp, GreetingService.create_greeting InMemoryGreetingRepository.init
        { recipient := "Alice", message := "Hello", include_timestamp := false } now0
      = .ok (resp, InMemoryGreetingRepository.init))
    ∧ (∃ e, GreetingRequest.validate "  " "Hello" false = .error e) := by
  refine ⟨?_, ?_, ?_, ?_⟩
  · exact (C2_validation_layers _ _ _).1 rfl
  · exact (C2_validation_layers
      { recipient := "Alice", message := "", include_timestamp := false }
      InMemoryGreetingRepository.init now0).2.1 (by decide) rfl
  · exact (C2_validation_layers
      { recipient := "Alice", message := "Hello", include_timestamp := false }
      InMemoryGreetingRepository.init now0).2.2.1 (by decide) (by decide)
  · exact (C2_validation_layers
      { recipient := "x", message := "Hello", include_timestamp := false }
      InMemoryGreetingRepository.init now0).2.2.2 "  " "Hello" false (by decide)

/-- C3: for every request with non-empty trimmed recipient and non-empty
message, `create_greeting` succeeds; with `include_timestamp = false` the
response text is exactly `"{message}, {recipient}!"` and the response
timestamp is null, and with `include_timestamp = true` the response text
starts with `"{message}, {recipient}!"` and contains `"The time is "`,
and the response timestamp is non-null. -/
theorem C3_create_greeting_valid (recipient message : String)
    (repo : InMemoryGreetingRepository) (now : DateTime)
    (hr : pyStrip recipient ≠ "") (hm : message ≠ "") :
    (∃ resp repo',
      GreetingService.create_greeting repo ⟨recipient, message, false⟩ now
        = .ok (resp, repo')
      ∧ resp.greeting = message ++ ", " ++ recipient ++ "!"
      ∧ resp.timestamp = none)
    ∧ (∃ resp repo',
      GreetingService.create_greeting repo ⟨recipient, message, true⟩ now
        = .ok (resp, repo')
      ∧ (∃ rest, resp.greeting = (message ++ ", " ++ recipient ++ "!") ++ rest)
      ∧ (∃ pre post, resp.greeting = pre ++ ("The time is " ++ post))
      ∧ resp.timestamp ≠ none) := by
  have hrne : recipient ≠ "" := fun h => hr (by rw [h]; exact pyStrip_empty)
  have hfalse :
      GreetingService.create_greeting repo ⟨recipient, message, false⟩ now
        = .ok ({ greeting := message ++ ", " ++ recipient ++ "!",
                 recipient := recipient, timestamp := none }, repo) := by
    simp [GreetingService.create_greeting, if_neg hrne, if_neg hm,
      Greeting.construct, Greeting.format_greeting]
  have htrue :
      GreetingService.create_greeting repo ⟨recipient, message, true⟩ now
        = .ok ({ greeting := message ++ ", " ++ recipient ++ "!" ++ " The time is "
                   ++ now.strftimeYmdHMS ++ ".",
                 recipient := recipient, timestamp := some now }, repo) := by
    simp [GreetingService.create_greeting, if_neg hrne, if_neg hm,
      Greeting.construct, Greeting.format_with_timestamp, Greeting.format_greeting]
  refine ⟨⟨_, _, hfalse, rfl, rfl⟩, _, _, htrue, ?_, ?_, by simp⟩
  · exact ⟨" The time is " ++ (now.strftimeYmdHMS ++ "."),
      by simp only [String.append_assoc]⟩
  · refine ⟨message ++ ", " ++ recipient ++ "!" ++ " ",
      now.strftimeYmdHMS ++ ".", ?_⟩
    have hsplit : (" The time is " : String) = " " ++ "The time is " := by decide
    rw [hsplit]
    simp only [String.append_assoc]

/-- Witness for C3 at recipient "World", message "Hello". -/
theorem C3_create_greeting_valid_witness :
    (∃ resp repo',
      GreetingService.create_greeting InMemoryGreetingRepository.init
          ⟨"World", "Hello", false⟩ now0
        = .ok (resp, repo')
      ∧ resp.greeting = "Hello" ++ ", " ++ "World" ++ "!"
      ∧ resp.timestamp = none)
    ∧ (∃ resp repo',
      GreetingService.create_greeting InMemoryGreetingRepository.init
          ⟨"World", "Hello", true⟩ now0
        = .ok (resp, repo')
      ∧ (∃ rest, resp.greeting = ("Hello" ++ ", " ++ "World" ++ "!") ++ rest)
      ∧ (∃ pre post, resp.greeting = pre ++ ("The time is " ++ post))
      ∧ resp.timestamp ≠ none) :=
  C3_create_greeting_valid "World" "Hello" InMemoryGreetingRepository.init now0
    (by decide) (by decide)

/-- C4: for every store state and positive limit, `get_latest` returns at
most `limit` greetings, all drawn from the store; they are ordered by
timestamp descending; greetings with equal timestamps keep their
insertion order (the result's slice at any fixed timestamp is a prefix of
the store's slice at that timestamp); and when fewer than `limit`
greetings exist, all of them are returned. -/
theorem C4_get_latest_spec (repo : InMemoryGreetingRepository) (limit : Nat)
    (hl : 0 < limit) :
    (repo.get_latest limit).length ≤ limit
    ∧ (∀ g, g ∈ repo.get_latest limit → g ∈ repo.all_greetings)
    ∧ (repo.get_latest limit).Pairwise
        (fun a b => DateTime.leb b.timestamp a.timestamp = true)
    ∧ (∀ t : DateTime,
        (repo.get_latest limit).filter (fun g => decide (g.timestamp = t))
          <+: repo.all_greetings.filter (fun g => decide (g.timestamp = t)))
    ∧ (repo.all_greetings.length ≤ limit →
        List.Perm (repo.get_latest limit) repo.all_greetings) := by
  refine ⟨?_, ?_, ?_, ?_, ?_⟩
  · rw [InMemoryGreetingRepository.get_latest, List.length_take]
    exact Nat.min_le_left _ _
  · intro g hg
    rw [InMemoryGreetingRepository.get_latest] at hg
    exact List.mem_mergeSort.mp (List.mem_of_mem_take hg)
  · exact ((List.sorted_mergeSort byTimestampDesc_trans byTimestampDesc_total
      repo.all_greetings).sublist (List.take_sublist _ _))
  · intro t
    rw [InMemoryGreetingRepository.get_latest]
    have hfix :
        (repo.all_greetings.mergeSort byTimestampDesc).filter
            (fun g => decide (g.timestamp = t))
          = repo.all_greetings.filter (fun g => decide (g.timestamp = t)) :=
      mergeSort_filter_fixed byTimestampDesc byTimestampDesc_trans
        byTimestampDesc_total repo.all_greetings _
        (fun a b ha hb => by
          have ha' : a.timestamp = t := of_decide_eq_true ha
          have hb' : b.timestamp = t := of_decide_eq_true hb
          simp only [byTimestampDesc, ha', hb']
          exact DateTime.leb_refl t)
    rw [← hfix]
    exact filter_take_isPrefix _ _ _
  · intro h
    rw [InMemoryGreetingRepository.get_latest,
      List.take_of_length_le (by rw [List.length_mergeSort]; exact h)]
    exact List.mergeSort_perm _ _

/-- Witness for C4 at the two-greeting store `demoRepo` and limit 1. -/
theorem C4_get_latest_spec_witness :
    (demoRepo.get_latest 1).length ≤ 1
    ∧ (∀ g, g ∈ demoRepo.get_latest 1 → g ∈ demoRepo.all_greetings)
    ∧ (demoRepo.get_latest 1).Pairwise
        (fun a b => DateTime.leb b.timestamp a.timestamp = true)
    ∧ (∀ t : DateTime,
        (demoRepo.get_latest 1).filter (fun g => decide (g.timestamp = t))
          <+: demoRepo.all_greetings.filter (fun g => decide (g.timestamp = t)))
    ∧ (demoRepo.all_greetings.length ≤ 1 →
        List.Perm (demoRepo.get_latest 1) demoRepo.all_greetings) :=
  C4_get_latest_spec demoRepo 1 (by decide)

/-- C5: a saved greeting appears in `all_greetings` and in its
recipient's bucket exactly as often as it was saved (in particular,
exactly once when saved once); `save` only appends, so it removes
nothing, every count is monotone, and the store size grows by one on
every save. -/
theorem C5_save_append_only (gs : List Greeting) (g : Greeting) :
    (InMemoryGreetingRepository.init.saveAll gs).all_greetings.count g = gs.count g
    ∧ ((InMemoryGreetingRepository.init.saveAll gs).greetings g.recipient).count g
        = gs.count g
    ∧ (∀ repo : InMemoryGreetingRepository,
        (repo.save g).all_greetings = repo.all_greetings ++ [g]
        ∧ (repo.save g).greetings g.recipient = repo.greetings g.recipient ++ [g]
        ∧ (repo.save g).all_greetings.length = repo.all_greetings.length + 1
        ∧ (∀ x : Greeting,
            repo.all_greetings.count x ≤ (repo.save g).all_greetings.count x)
        ∧ (∀ r : String, ∀ x : Greeting,
            (repo.greetings r).count x ≤ ((repo.save g).greetings r).count x)) := by
  refine ⟨?_, ?_, ?_⟩
  · rw [saveAll_all_greetings]
    rfl
  · rw [saveAll_bucket]
    simp only [InMemoryGreetingRepository.init, List.nil_append]
    exact List.count_filter (by simp)
  · intro repo
    refine ⟨rfl, ?_, by simp [InMemoryGreetingRepository.save], ?_, ?_⟩
    · simp [InMemoryGreetingRepository.save]
    · intro x
      simp [InMemoryGreetingRepository.save]
    · intro r x
      by_cases h : r = g.recipient
      · simp [InMemoryGreetingRepository.save, h]
      · simp [InMemoryGreetingRepository.save, h]

/-- C8: `find_by_recipient` on a recipient no save ever targeted returns
the empty list (and, being a total function in the embedding of
`dict.get(recipient, [])`, it cannot raise), whatever saves built the
store. -/
theorem C8_find_by_recipient_unknown (gs : List Greeting) (r : String)
    (h : ∀ g, g ∈ gs → g.recipient ≠ r) :
    (InMemoryGreetingRepository.init.saveAll gs).find_by_recipient r = [] := by
  rw [InMemoryGreetingRepository.find_by_recipient, saveAll_bucket]
  simp only [InMemoryGreetingRepository.init, List.nil_append]
  exact List.filter_eq_nil_iff.mpr fun g hg => by simp [h g hg]

/-- Witness for C8: a store holding only a greeting for "Alice" yields
nothing for "Bob". -/
theorem C8_find_by_recipient_unknown_witness :
    (InMemoryGreetingRepository.init.saveAll [gAlice]).find_by_recipient "Bob" = [] :=
  C8_find_by_recipient_unknown [gAlice] "Bob" (by decide)

/-- C10: the query operations change nothing — the state after any
sequence of repository calls is the state produced by its save calls
alone, and running `find_by_recipient` or `get_latest` is the identity on
the state. -/
theorem C10_queries_do_not_mutate (ops : List StoreOp)
    (repo : InMemoryGreetingRepository) :
    runOps ops repo = repo.saveAll (savesOf ops)
    ∧ (∀ r, StoreOp.run (.findByRecipient r) repo = repo)
    ∧ (∀ n, StoreOp.run (.getLatest n) repo = repo) := by
  refine ⟨?_, fun _ => rfl, fun _ => rfl⟩
  induction ops generalizing repo with
  | nil => rfl
  | cons op ops ih =>
    cases op <;>
      simp [runOps, savesOf, InMemoryGreetingRepository.saveAll, StoreOp.run,
        List.foldl_cons, List.filterMap_cons, ih,
        runOps, InMemoryGreetingRepository.saveAll] at ih ⊢ <;>
      exact ih _

end ProjectName
